import Mathlib

/-!
Verification development for the strava-mcp repository.

The definitions below are a shallow embedding of the two algorithmic cores
of the repository: the zone-configuration / classification / time-series
aggregation engine (`zones-config` module and
`StravaClient.analyzeHeartRateZones`), the credential-file writer
(`StravaClient.updateTokensInEnvFile`), and the refresh-and-retry wrapper
(`StravaClient.handleApiCall`).  JavaScript numbers are modelled as
rationals (`ℚ`); `Math.round` is Mathlib's `round` (round half up, the
behaviour of `Math.round` on the values considered here); JavaScript
objects with insertion-ordered string keys are association lists.
-/

/-- A configured zone: `{ min, max, description }` from `zones-config`.
The optional `unit` field carries no behaviour and is omitted. -/
structure Zone where
  min : ℚ
  max : ℚ
  description : String
deriving DecidableEq, Repr

/-- A sport's zone object: insertion-ordered mapping of zone name to zone. -/
abbrev SportZones := List (String × Zone)

/-- The two sports recognised by the configuration. -/
inductive Sport
  | running
  | cycling
deriving DecidableEq, Repr

/-- The `sports` block of the configuration. -/
structure Sports where
  running : SportZones
  cycling : SportZones
deriving DecidableEq, Repr

/-- Per-sport user settings (`metadata.userSettings.<sport>`). -/
structure UserSetting where
  maxHeartRate : ℚ
  restingHeartRate : ℚ
deriving DecidableEq, Repr

/-- The `metadata.userSettings` block. -/
structure UserSettings where
  running : UserSetting
  cycling : UserSetting
deriving DecidableEq, Repr

/-- The `metadata` block of the configuration. -/
structure Metadata where
  version : String
  description : String
  defaultSport : String
  autoCalculate : Bool
  userSettings : UserSettings
deriving DecidableEq, Repr

/-- The `powerSettings.cycling` block (`{ ftp, autoCalculate }`). -/
structure PowerSettings where
  ftp : ℚ
  autoCalculate : Bool
deriving DecidableEq, Repr

/-- The whole `zones.config.json` document.  In the source, `powerZones`
and `powerSettings` are optional objects holding a single `cycling` key;
they are modelled as `Option` of that key's value. -/
structure ZonesConfig where
  sports : Sports
  metadata : Metadata
  powerZones : Option SportZones
  powerSettings : Option PowerSettings
deriving DecidableEq, Repr

/-- `config.sports[sport]`. -/
def sportZones (config : ZonesConfig) (sport : Sport) : SportZones :=
  match sport with
  | .running => config.sports.running
  | .cycling => config.sports.cycling

/-- The loop body of `getHeartRateZone`: iterate the entries in insertion
order and return the first zone with
`heartRate >= zone.min && (heartRate <= zone.max || zone.max >= 999)`. -/
def findZoneHR (heartRate : ℚ) : SportZones → Option (String × Zone)
  | [] => none
  | z :: rest =>
    if z.2.min ≤ heartRate ∧ (heartRate ≤ z.2.max ∨ 999 ≤ z.2.max) then some z
    else findZoneHR heartRate rest

/-- `getHeartRateZone(heartRate, sport, config)` from `zones-config`. -/
def getHeartRateZone (heartRate : ℚ) (sport : Sport) (config : ZonesConfig) :
    Option (String × Zone) :=
  findZoneHR heartRate (sportZones config sport)

/-- The loop body of `getPowerZone`, identical to the heart-rate scan but
with the `9999` sentinel. -/
def findZonePower (power : ℚ) : SportZones → Option (String × Zone)
  | [] => none
  | z :: rest =>
    if z.2.min ≤ power ∧ (power ≤ z.2.max ∨ 9999 ≤ z.2.max) then some z
    else findZonePower power rest

/-- `getPowerZone(power, config)` from `zones-config`: `none` when the
configuration has no `powerZones.cycling` block. -/
def getPowerZone (power : ℚ) (config : ZonesConfig) : Option (String × Zone) :=
  match config.powerZones with
  | none => none
  | some zones => findZonePower power zones

/-- Overwrite the bounds of the zone named `name`, leaving every other
entry and the description untouched (the effect of the source's
`zones[name].min = mn; zones[name].max = mx`). -/
def setZoneBounds (zones : SportZones) (name : String) (mn mx : ℚ) : SportZones :=
  zones.map (fun p => if p.1 = name then (p.1, { p.2 with min := mn, max := mx }) else p)

/-- `calculateRunningZones` from `zones-config`: overwrite the running
zone bounds with fixed percentages of `userSettings.running.maxHeartRate`. -/
def calculateRunningZones (config : ZonesConfig) : ZonesConfig :=
  let maxHR := config.metadata.userSettings.running.maxHeartRate
  let z0 := config.sports.running
  let z1 := setZoneBounds z0 "Zone 1" (round (maxHR * 0.50)) (round (maxHR * 0.60))
  let z2 := setZoneBounds z1 "Low Zone 2" (round (maxHR * 0.60)) (round (maxHR * 0.65))
  let z3 := setZoneBounds z2 "High Zone 2" (round (maxHR * 0.65)) (round (maxHR * 0.70))
  let z4 := setZoneBounds z3 "Zone 3" (round (maxHR * 0.70)) (round (maxHR * 0.80))
  let z5 := setZoneBounds z4 "Zone 4" (round (maxHR * 0.80)) (round (maxHR * 0.90))
  let z6 := setZoneBounds z5 "Zone 5" (round (maxHR * 0.90)) 999
  { config with sports := { config.sports with running := z6 } }

/-- `calculateCyclingZones` from `zones-config`: the same percentage table
applied to the cycling heart-rate zones. -/
def calculateCyclingZones (config : ZonesConfig) : ZonesConfig :=
  let maxHR := config.metadata.userSettings.cycling.maxHeartRate
  let z0 := config.sports.cycling
  let z1 := setZoneBounds z0 "Zone 1" (round (maxHR * 0.50)) (round (maxHR * 0.60))
  let z2 := setZoneBounds z1 "Low Zone 2" (round (maxHR * 0.60)) (round (maxHR * 0.65))
  let z3 := setZoneBounds z2 "High Zone 2" (round (maxHR * 0.65)) (round (maxHR * 0.70))
  let z4 := setZoneBounds z3 "Zone 3" (round (maxHR * 0.70)) (round (maxHR * 0.80))
  let z5 := setZoneBounds z4 "Zone 4" (round (maxHR * 0.80)) (round (maxHR * 0.90))
  let z6 := setZoneBounds z5 "Zone 5" (round (maxHR * 0.90)) 999
  { config with sports := { config.sports with cycling := z6 } }

/-- `calculateCyclingPowerZones` from `zones-config`: no-op when
`powerZones.cycling` is absent or `powerSettings.cycling.ftp` is falsy
(zero); otherwise overwrite the six power-zone bounds with rounded FTP
percentages, the top zone capped by the `9999` sentinel. -/
def calculateCyclingPowerZones (config : ZonesConfig) : ZonesConfig :=
  match config.powerZones, config.powerSettings with
  | some pz, some ps =>
    if ps.ftp = 0 then config
    else
      let ftp := ps.ftp
      let z1 := setZoneBounds pz "Zone 1" 0 (round (ftp * 0.55))
      let z2 := setZoneBounds z1 "Zone 2" (round (ftp * 0.56)) (round (ftp * 0.75))
      let z3 := setZoneBounds z2 "Zone 3" (round (ftp * 0.76)) (round (ftp * 0.90))
      let z4 := setZoneBounds z3 "Zone 4" (round (ftp * 0.91)) (round (ftp * 1.05))
      let z5 := setZoneBounds z4 "Zone 5" (round (ftp * 1.06)) (round (ftp * 1.20))
      let z6 := setZoneBounds z5 "Zone 6" (round (ftp * 1.21)) 9999
      { config with powerZones := some z6 }
  | _, _ => config

/-- `getDefaultConfig` from `zones-config`, field for field. -/
def getDefaultConfig : ZonesConfig :=
  { sports :=
      { running :=
          [("Zone 1", ⟨0, 0, "Active Recovery - Easy conversational pace"⟩),
           ("Low Zone 2", ⟨0, 0, "Aerobic Base - Comfortable endurance pace"⟩),
           ("High Zone 2", ⟨0, 0, "Aerobic Base - Moderate endurance pace"⟩),
           ("Zone 3", ⟨0, 0, "Aerobic Threshold - Comfortably hard pace"⟩),
           ("Zone 4", ⟨0, 0, "Lactate Threshold - Hard sustainable pace"⟩),
           ("Zone 5", ⟨0, 999, "VO2 Max - Very hard to maximal effort"⟩)],
        cycling :=
          [("Zone 1", ⟨0, 0, "Active Recovery - Easy spinning, minimal effort"⟩),
           ("Low Zone 2", ⟨0, 0, "Aerobic Base - Comfortable endurance riding"⟩),
           ("High Zone 2", ⟨0, 0, "Aerobic Base - Moderate endurance riding"⟩),
           ("Zone 3", ⟨0, 0, "Aerobic Threshold - Tempo riding pace"⟩),
           ("Zone 4", ⟨0, 0, "Lactate Threshold - Hard sustainable cycling effort"⟩),
           ("Zone 5", ⟨0, 999, "VO2 Max - Very hard to maximal cycling effort"⟩)] },
    metadata :=
      { version := "2.0",
        description := "Multi-sport HR zones configuration with cycling-specific zones",
        defaultSport := "running",
        autoCalculate := false,
        userSettings :=
          { running := ⟨0, 0⟩, cycling := ⟨0, 0⟩ } },
    powerZones :=
      some
        [("Zone 1", ⟨0, 0, "Active Recovery - Easy spinning, minimal power output"⟩),
         ("Zone 2", ⟨0, 0, "Aerobic Base - Comfortable endurance power"⟩),
         ("Zone 3", ⟨0, 0, "Aerobic Threshold - Tempo power output"⟩),
         ("Zone 4", ⟨0, 0, "Lactate Threshold - Functional Threshold Power (FTP)"⟩),
         ("Zone 5", ⟨0, 0, "VO2 Max - Hard anaerobic power"⟩),
         ("Zone 6", ⟨0, 9999, "Anaerobic Capacity - Maximal power output"⟩)],
    powerSettings := some ⟨0, false⟩ }

/-- `loadZonesConfig` from `zones-config`.  File access and JSON parsing
are outside the embedding, so the function takes the parse result:
`none` stands for an unreadable or malformed configuration file (the
`catch` branch of the source, which returns `getDefaultConfig()`);
`some config` is a successfully parsed document, to which the two
auto-calculation passes are applied exactly as in the source. -/
def loadZonesConfig (parsed : Option ZonesConfig) : ZonesConfig :=
  match parsed with
  | none => getDefaultConfig
  | some config =>
    let c1 :=
      if config.metadata.autoCalculate then
        let ca :=
          if 0 < config.metadata.userSettings.running.maxHeartRate then
            calculateRunningZones config
          else config
        if 0 < ca.metadata.userSettings.cycling.maxHeartRate then
          calculateCyclingZones ca
        else ca
      else config
    match c1.powerSettings with
    | some ps =>
      if ps.autoCalculate ∧ 0 < ps.ftp then calculateCyclingPowerZones c1 else c1
    | none => c1

/-- The successive differences `timeData[i] - timeData[i-1]` collected by
the interval loop of `analyzeHeartRateZones`. -/
def successiveDiffs : List ℚ → List ℚ
  | a :: b :: rest => (b - a) :: successiveDiffs (b :: rest)
  | _ => []

/-- The `timeInterval` computation of `analyzeHeartRateZones`: the mean of
successive time differences when `timeData` matches the reading array in
length and has at least two points, otherwise the 1-second default. -/
def computeTimeInterval (timeData heartRateData : List ℚ) : ℚ :=
  if timeData.length = heartRateData.length ∧ 1 < timeData.length then
    (successiveDiffs timeData).sum / ((successiveDiffs timeData).length : ℚ)
  else 1

/-- The zone name a reading is bucketed under: the `zoneName` component of
the classification result. -/
def classifiedName (zones : SportZones) (hr : ℚ) : Option String :=
  (findZoneHR hr zones).map Prod.fst

/-- The `zoneHeartRates[name]` accumulator after the classification loop:
the readings whose classification lands on `name`, in stream order (the
loop pushes each classified reading onto its zone's list). -/
def zoneHeartRates (zones : SportZones) (heartRateData : List ℚ) (name : String) :
    List ℚ :=
  match heartRateData with
  | [] => []
  | hr :: rest =>
    if classifiedName zones hr = some name then hr :: zoneHeartRates zones rest name
    else zoneHeartRates zones rest name

/-- `Math.min(...list)` over a non-empty list, `none` when empty. -/
def listMin : List ℚ → Option ℚ
  | [] => none
  | x :: xs => some (xs.foldl min x)

/-- `Math.max(...list)` over a non-empty list, `none` when empty. -/
def listMax : List ℚ → Option ℚ
  | [] => none
  | x :: xs => some (xs.foldl max x)

/-- One row of the `zoneBreakdown` array built by `analyzeHeartRateZones`. -/
structure ZoneRow where
  zone_name : String
  zone_info : Zone
  time_seconds : ℤ
  time_minutes : ℚ
  percentage : ℚ
  data_points : ℕ
  average_heart_rate : Option ℤ
  min_heart_rate : Option ℚ
  max_heart_rate : Option ℚ
deriving DecidableEq, Repr

/-- The row pushed for one configured zone.  `zoneTime[name]` accumulates
`timeInterval` once per classified sample, hence equals
`bucket.length * timeInterval`.  The `average_heart_rate` field mirrors
the source's `avgHR ? Math.round(avgHR) : null`, where a zero average is
falsy and also yields `null`. -/
def zoneRow (zones : SportZones) (heartRateData : List ℚ)
    (timeInterval totalTime : ℚ) (p : String × Zone) : ZoneRow :=
  let bucket := zoneHeartRates zones heartRateData p.1
  let timeInZone : ℚ := bucket.length * timeInterval
  let percentage : ℚ := if 0 < totalTime then timeInZone / totalTime * 100 else 0
  let avgHR : Option ℚ :=
    if bucket.length ≠ 0 then some (bucket.sum / (bucket.length : ℚ)) else none
  { zone_name := p.1
    zone_info := p.2
    time_seconds := round timeInZone
    time_minutes := (round (timeInZone / 60 * 10) : ℚ) / 10
    percentage := (round (percentage * 10) : ℚ) / 10
    data_points := bucket.length
    average_heart_rate :=
      match avgHR with
      | some a => if a = 0 then none else some (round a)
      | none => none
    min_heart_rate := listMin bucket
    max_heart_rate := listMax bucket }

/-- Insert a row into a list already sorted by descending percentage,
after every row of greater-or-equal percentage. -/
def insertRow (x : ZoneRow) : List ZoneRow → List ZoneRow
  | [] => [x]
  | y :: ys => if y.percentage ≤ x.percentage then x :: y :: ys else y :: insertRow x ys

/-- The `sort((a, b) => b.percentage - a.percentage)` step: JavaScript
`Array.sort` is stable, so the result is the stable descending reordering
by percentage, here realised as a stable insertion sort. -/
def sortByPercentageDesc : List ZoneRow → List ZoneRow
  | [] => []
  | x :: xs => insertRow x (sortByPercentageDesc xs)

/-- The analysis record returned on the successful path of
`analyzeHeartRateZones`. -/
structure ZoneAnalysis where
  sport : Sport
  total_time_seconds : ℤ
  total_time_minutes : ℚ
  zones : List ZoneRow
deriving DecidableEq, Repr

/-- The three result shapes of `analyzeHeartRateZones`: `null` for empty
reading data, the `error` marker object when the sport has no configured
zones, and the populated analysis otherwise. -/
inductive AnalysisResult
  | noData
  | zonesNotConfigured
  | ok (analysis : ZoneAnalysis)
deriving DecidableEq, Repr

/-- `StravaClient.analyzeHeartRateZones(heartRateData, sport, zonesConfig,
timeData)` from `strava-client.ts`. -/
def analyzeHeartRateZones (heartRateData : List ℚ) (sport : Sport)
    (config : ZonesConfig) (timeData : List ℚ) : AnalysisResult :=
  if heartRateData.length = 0 then .noData
  else
    let zones := sportZones config sport
    if zones.length = 0 then .zonesNotConfigured
    else
      let timeInterval := computeTimeInterval timeData heartRateData
      let totalTime : ℚ := heartRateData.length * timeInterval
      let zoneBreakdown := zones.map (zoneRow zones heartRateData timeInterval totalTime)
      .ok
        { sport := sport
          total_time_seconds := round totalTime
          total_time_minutes := (round (totalTime / 60 * 10) : ℚ) / 10
          zones := sortByPercentageDesc zoneBreakdown }

/-- JavaScript `line.startsWith(p)`: `p.data` is an initial segment of
`line.data`. -/
def jsStartsWith (line p : String) : Bool :=
  line.data.take p.data.length == p.data

/-- The whitespace characters relevant to the `.env` contents considered
here (JavaScript `trim()` strips these, among other Unicode spaces). -/
def isWS (c : Char) : Bool :=
  c == ' ' || c == '\t' || c == '\n' || c == '\r'

/-- Strip leading and trailing whitespace from a character list. -/
def jsTrimData (l : List Char) : List Char :=
  ((l.dropWhile isWS).reverse.dropWhile isWS).reverse

/-- JavaScript `s.trim()`. -/
def jsTrim (s : String) : String :=
  ⟨jsTrimData s.data⟩

/-- Split a character list at newline characters; like JavaScript
`split('\n')`, the empty input gives one empty field and a trailing
newline gives a trailing empty field. -/
def splitNL : List Char → List (List Char)
  | [] => [[]]
  | c :: rest =>
    match splitNL rest, c == '\n' with
    | r, true => [] :: r
    | first :: others, false => (c :: first) :: others
    | [], false => [[c]]

/-- JavaScript `content.split('\n')`. -/
def jsSplitNewline (s : String) : List String :=
  (splitNL s.data).map String.mk

/-- JavaScript `lines.join('\n')`. -/
def joinNL : List String → String
  | [] => ""
  | [s] => s
  | s :: rest => s ++ "\n" ++ joinNL rest

/-- The line loop of `updateTokensInEnvFile` together with its trailing
append step.  The two booleans are the source's `accessTokenUpdated` and
`refreshTokenUpdated` flags; a line whose `trim()` is empty is not pushed
to `newLines`. -/
def processEnvLines (accessToken refreshToken : String) :
    List String → Bool → Bool → List String
  | [], accessUpdated, refreshUpdated =>
    (if accessUpdated then [] else ["STRAVA_ACCESS_TOKEN=" ++ accessToken]) ++
      (if refreshUpdated then [] else ["STRAVA_REFRESH_TOKEN=" ++ refreshToken])
  | line :: rest, accessUpdated, refreshUpdated =>
    if jsStartsWith line "STRAVA_ACCESS_TOKEN=" then
      ("STRAVA_ACCESS_TOKEN=" ++ accessToken) ::
        processEnvLines accessToken refreshToken rest true refreshUpdated
    else if jsStartsWith line "STRAVA_REFRESH_TOKEN=" then
      ("STRAVA_REFRESH_TOKEN=" ++ refreshToken) ::
        processEnvLines accessToken refreshToken rest accessUpdated true
    else if jsTrim line ≠ "" then
      line :: processEnvLines accessToken refreshToken rest accessUpdated refreshUpdated
    else
      processEnvLines accessToken refreshToken rest accessUpdated refreshUpdated

/-- `StravaClient.updateTokensInEnvFile` as a function from the current
file content to the content written back:
`split('\n')`, the line loop, `join('\n').trim() + '\n'`. -/
def updateTokensInEnvFile (envContent accessToken refreshToken : String) : String :=
  let lines := jsSplitNewline envContent
  jsTrim (joinNL (processEnvLines accessToken refreshToken lines false false)) ++ "\n"

/-- Spec-side per-line update for the refinement statement about
`updateTokensInEnvFile`: a line is rewritten in place when it is one of
the two token lines and kept verbatim otherwise ("preserving every other
line/entry in that store untouched"). -/
def replaceTokenLine (accessToken refreshToken line : String) : String :=
  if jsStartsWith line "STRAVA_ACCESS_TOKEN=" then "STRAVA_ACCESS_TOKEN=" ++ accessToken
  else if jsStartsWith line "STRAVA_REFRESH_TOKEN=" then "STRAVA_REFRESH_TOKEN=" ++ refreshToken
  else line

/-- A thrown error as inspected by `isAuthError`: whether it carries a
`response` object, that response's `status`, and an identifying message
(so that propagating the same error object is expressible). -/
structure ApiError where
  hasResponse : Bool
  status : Int
  message : String
deriving DecidableEq, Repr

/-- The outcome of one invocation of an async operation: a resolved value
or a thrown error. -/
inductive ApiOutcome (α : Type)
  | ok (value : α)
  | err (e : ApiError)
deriving DecidableEq, Repr

/-- Instrumentation counting how often the wrapped remote operation and
`refreshAccessToken` have been invoked. -/
structure CallCounts where
  apiCalls : ℕ
  refreshCalls : ℕ
deriving DecidableEq, Repr

/-- An async operation: reads the instrumentation state, yields an
outcome and the updated state. -/
def ApiAction (α : Type) : Type := CallCounts → ApiOutcome α × CallCounts

/-- `StravaClient.isAuthError`: the error has a `response` whose
`status` is `401`. -/
def isAuthError (e : ApiError) : Bool :=
  e.hasResponse && (e.status == 401)

/-- A remote operation whose outcome on its n-th invocation is
`behavior n`; each invocation bumps the `apiCalls` counter. -/
def countedApiCall (behavior : ℕ → ApiOutcome α) : ApiAction α :=
  fun s => (behavior s.apiCalls, { s with apiCalls := s.apiCalls + 1 })

/-- `refreshAccessToken` with outcome `behavior n` on its n-th
invocation; each invocation bumps the `refreshCalls` counter. -/
def countedRefresh (behavior : ℕ → ApiOutcome Unit) : ApiAction Unit :=
  fun s => (behavior s.refreshCalls, { s with refreshCalls := s.refreshCalls + 1 })

/-- `StravaClient.handleApiCall(context, apiCall)`: run `apiCall`; on a
thrown error that `isAuthError` recognises, run `refreshAccessToken` and
retry `apiCall` once, and if the refresh or the retry throws, fall
through and rethrow the original error; any other error is rethrown
immediately. -/
def handleApiCall (apiCall : ApiAction α) (refreshAccessToken : ApiAction Unit) :
    ApiAction α :=
  fun s =>
    match apiCall s with
    | (.ok v, s1) => (.ok v, s1)
    | (.err e, s1) =>
      if isAuthError e then
        match refreshAccessToken s1 with
        | (.ok _, s2) =>
          match apiCall s2 with
          | (.ok v, s3) => (.ok v, s3)
          | (.err _, s3) => (.err e, s3)
        | (.err _, s2) => (.err e, s2)
      else (.err e, s1)

/-- `await`-sequencing of two async operations: the second runs only when
the first resolves; a thrown error propagates. -/
def andThen (a : ApiAction α) (f : α → ApiAction β) : ApiAction β :=
  fun s =>
    match a s with
    | (.ok v, s1) => f v s1
    | (.err e, s1) => (.err e, s1)

/-- `StravaClient.getActivity`: a single remote request wrapped in its
own `handleApiCall`. -/
def getActivityM (behavior : ℕ → ApiOutcome α) (refresh : ApiAction Unit) :
    ApiAction α :=
  handleApiCall (countedApiCall behavior) refresh

/-- The call skeleton of `StravaClient.getActivityLapsWithData`: its body
first awaits `getActivity` and then `getActivityLaps` (each wrapped in
its own `handleApiCall`), and the body itself is wrapped in yet another
`handleApiCall`.  Stream fetching and per-lap post-processing happen
after these awaits and do not affect the retry structure. -/
def getActivityLapsWithDataM (activityBehavior : ℕ → ApiOutcome α)
    (lapsBehavior : ℕ → ApiOutcome β) (refresh : ApiAction Unit) :
    ApiAction (α × β) :=
  handleApiCall
    (andThen (getActivityM activityBehavior refresh) (fun a =>
      andThen (handleApiCall (countedApiCall lapsBehavior) refresh) (fun l =>
        fun s => (.ok (a, l), s))))
    refresh

/-- The zone rows of an analysis result, empty for the two marker
results. -/
def analysisZones : AnalysisResult → List ZoneRow
  | .ok a => a.zones
  | _ => []

/-- The running zone table of the concrete scenario in the specification:
`Zone1[0,140] Zone2[140,160] Zone3[160,200]` with placeholder
descriptions. -/
def c1zones : SportZones :=
  [("Zone 1", ⟨0, 140, "z1"⟩), ("Zone 2", ⟨140, 160, "z2"⟩), ("Zone 3", ⟨160, 200, "z3"⟩)]

/-- A configuration carrying the concrete-scenario running zones. -/
def c1config : ZonesConfig :=
  { getDefaultConfig with sports := { running := c1zones, cycling := [] } }

/-- The concrete-scenario heart-rate readings. -/
def c1hrs : List ℚ := [140, 145, 150, 155, 160, 165, 170, 175, 170, 165]

/-- The concrete-scenario elapsed times (10-second spacing). -/
def c1times : List ℚ := [0, 10, 20, 30, 40, 50, 60, 70, 80, 90]

/-- The analysis the code actually produces on the concrete scenario:
the boundary readings 140 and 160 land in Zone 1 and Zone 2 because the
containment test uses a closed upper bound. -/
def c1analysis : ZoneAnalysis :=
  { sport := .running
    total_time_seconds := 100
    total_time_minutes := 17/10
    zones :=
      [⟨"Zone 3", ⟨160, 200, "z3"⟩, 50, 4/5, 50, 5, some 169, some 165, some 175⟩,
       ⟨"Zone 2", ⟨140, 160, "z2"⟩, 40, 7/10, 40, 4, some 153, some 145, some 160⟩,
       ⟨"Zone 1", ⟨0, 140, "z1"⟩, 10, 1/5, 10, 1, some 140, some 140, some 140⟩] }

/-- An ordered, contiguous zone table whose top zone carries the `999`
sentinel, used to exercise the general classification theorem. -/
def c2zones : SportZones :=
  [("Zone 1", ⟨0, 140, "low"⟩), ("Zone 2", ⟨140, 160, "mid"⟩), ("Zone 3", ⟨160, 999, "high"⟩)]

/-- Four contiguous-by-intent zones for the percentage-sum experiment. -/
def c6zones : SportZones :=
  [("A", ⟨0, 9, "a"⟩), ("B", ⟨10, 19, "b"⟩), ("C", ⟨20, 29, "c"⟩), ("D", ⟨30, 39, "d"⟩)]

/-- A configuration carrying the percentage-sum experiment zones. -/
def c6config : ZonesConfig :=
  { getDefaultConfig with sports := { running := c6zones, cycling := [] } }

/-- Sixteen readings hitting the four zones 1, 3, 5 and 7 times: every
per-zone percentage is an odd multiple of `6.25`, so each one-decimal
rounding errs upward by `0.05`. -/
def c6hrs : List ℚ := [5, 11, 12, 13, 21, 22, 23, 24, 25, 31, 32, 33, 34, 35, 36, 37]

/-- Uniform 1-second time stamps for the percentage-sum experiment. -/
def c6times : List ℚ := [0, 1, 2, 3, 4, 5, 6, 7, 8, 9, 10, 11, 12, 13, 14, 15]

/-- A one-zone table used to instantiate the aggregation-sum theorem. -/
def c6wzones : SportZones := [("A", ⟨0, 10, "a"⟩)]

/-- A configuration carrying the one-zone table. -/
def c6wconfig : ZonesConfig :=
  { getDefaultConfig with sports := { running := c6wzones, cycling := [] } }

/-- The analysis produced on the one-zone instantiation: one sample,
1-second interval, a single row holding all the time. -/
def c6wanalysis : ZoneAnalysis :=
  { sport := .running
    total_time_seconds := 1
    total_time_minutes := 0
    zones := [⟨"A", ⟨0, 10, "a"⟩, 1, 0, 100, 1, some 5, some 5, some 5⟩] }

/-- The default configuration with power auto-calculation enabled at
FTP 200. -/
def cfg200 : ZonesConfig :=
  { getDefaultConfig with powerSettings := some ⟨200, true⟩ }

/-- An authorization failure: an error with a response of status 401. -/
def authFailure : ApiError := ⟨true, 401, "Unauthorized"⟩

/-- A non-authorization remote failure: a response with status 500. -/
def serverFailure : ApiError := ⟨true, 500, "Internal Server Error"⟩

/-- A failure thrown by the refresh path itself (no response object). -/
def refreshFailure : ApiError := ⟨false, 0, "Failed to refresh Strava access token"⟩

/-- A wrapped operation failing with an authorization error once, then
succeeding with 42. -/
def authThenOk : ℕ → ApiOutcome ℕ :=
  fun n => if n = 0 then .err authFailure else .ok 42

/-- A wrapped operation failing with an authorization error on every
invocation. -/
def alwaysAuthFail : ℕ → ApiOutcome ℕ :=
  fun _ => .err authFailure

/-- A wrapped operation failing with a non-authorization error. -/
def alwaysServerFail : ℕ → ApiOutcome ℕ :=
  fun _ => .err serverFailure

/-- A wrapped operation that always succeeds. -/
def alwaysOk : ℕ → ApiOutcome ℕ :=
  fun _ => .ok 7

/-- A refresh that always succeeds. -/
def refreshAlwaysOk : ℕ → ApiOutcome Unit :=
  fun _ => .ok ()

/-- A refresh that always fails. -/
def refreshAlwaysFails : ℕ → ApiOutcome Unit :=
  fun _ => .err refreshFailure

/-- C3: if the wrapped function fails on its first invocation with an
authorization error and succeeds on its second, the resilient call
returns the second invocation's success value, the token refresh is
invoked exactly once, and the wrapped function is invoked exactly
twice. -/
theorem claim3_theorem {α : Type} (v : α) (e : ApiError)
    (behavior : ℕ → ApiOutcome α) (refreshBehavior : ℕ → ApiOutcome Unit)
    (hauth : isAuthError e = true) (h0 : behavior 0 = .err e)
    (h1 : behavior 1 = .ok v) (hr : refreshBehavior 0 = .ok ()) :
    handleApiCall (countedApiCall behavior) (countedRefresh refreshBehavior) ⟨0, 0⟩
      = (.ok v, ⟨2, 1⟩) := by
  simp [handleApiCall, countedApiCall, countedRefresh, h0, h1, hr, hauth]

theorem claim3_witness :
    handleApiCall (countedApiCall authThenOk) (countedRefresh refreshAlwaysOk) ⟨0, 0⟩
      = (.ok 42, ⟨2, 1⟩) :=
  claim3_theorem 42 authFailure authThenOk refreshAlwaysOk (by decide) (by decide)
    (by decide) (by decide)

/-- C8: if the wrapped function fails with a non-authorization error,
the resilient call never invokes the token refresh, invokes the wrapped
function exactly once, and propagates that same error to the caller. -/
theorem claim8_theorem {α : Type} (e : ApiError)
    (behavior : ℕ → ApiOutcome α) (refreshBehavior : ℕ → ApiOutcome Unit)
    (hnotauth : isAuthError e = false) (h0 : behavior 0 = .err e) :
    handleApiCall (countedApiCall behavior) (countedRefresh refreshBehavior) ⟨0, 0⟩
      = (.err e, ⟨1, 0⟩) := by
  simp [handleApiCall, countedApiCall, countedRefresh, h0, hnotauth]

theorem claim8_witness :
    handleApiCall (countedApiCall alwaysServerFail) (countedRefresh refreshAlwaysOk) ⟨0, 0⟩
      = (.err serverFailure, ⟨1, 0⟩) :=
  claim8_theorem serverFailure alwaysServerFail refreshAlwaysOk (by decide) (by decide)

/-- C10: when the first invocation fails with an authorization error and
the refresh, or the single retry, also fails, the resilient call throws
exactly the first error raised by the wrapped function; neither the
refresh error nor the retry's error is propagated. -/
theorem claim10_theorem {α : Type} (e : ApiError)
    (behavior : ℕ → ApiOutcome α) (refreshBehavior : ℕ → ApiOutcome Unit)
    (hauth : isAuthError e = true) (h0 : behavior 0 = .err e) :
    (∀ e2, refreshBehavior 0 = .err e2 →
      handleApiCall (countedApiCall behavior) (countedRefresh refreshBehavior) ⟨0, 0⟩
        = (.err e, ⟨1, 1⟩)) ∧
    (∀ e3, refreshBehavior 0 = .ok () → behavior 1 = .err e3 →
      handleApiCall (countedApiCall behavior) (countedRefresh refreshBehavior) ⟨0, 0⟩
        = (.err e, ⟨2, 1⟩)) := by
  constructor
  · intro e2 hr
    simp [handleApiCall, countedApiCall, countedRefresh, h0, hr, hauth]
  · intro e3 hr h1
    simp [handleApiCall, countedApiCall, countedRefresh, h0, hr, h1, hauth]

theorem claim10_witness :
    handleApiCall (countedApiCall alwaysAuthFail) (countedRefresh refreshAlwaysFails) ⟨0, 0⟩
      = (.err authFailure, ⟨1, 1⟩) ∧
    handleApiCall (countedApiCall alwaysAuthFail) (countedRefresh refreshAlwaysOk) ⟨0, 0⟩
      = (.err authFailure, ⟨2, 1⟩) :=
  ⟨(claim10_theorem authFailure alwaysAuthFail refreshAlwaysFails (by decide)
      (by decide)).1 refreshFailure (by decide),
   (claim10_theorem authFailure alwaysAuthFail refreshAlwaysOk (by decide)
      (by decide)).2 authFailure (by decide) (by decide)⟩

/-- C9: a composite operation whose body invokes operations wrapped in
their own retry handlers, itself wrapped in a retry handler, applies the
refresh-and-retry policy at each nesting level: under a persistent
authorization failure of the innermost request, one outer call performs
three refreshes and four innermost requests — more than the one refresh
and two invocations of a single handler. -/
theorem claim9_theorem :
    getActivityLapsWithDataM alwaysAuthFail alwaysOk (countedRefresh refreshAlwaysOk) ⟨0, 0⟩
      = (.err authFailure, ⟨4, 3⟩) ∧
    1 < (getActivityLapsWithDataM alwaysAuthFail alwaysOk
          (countedRefresh refreshAlwaysOk) ⟨0, 0⟩).2.refreshCalls ∧
    2 < (getActivityLapsWithDataM alwaysAuthFail alwaysOk
          (countedRefresh refreshAlwaysOk) ⟨0, 0⟩).2.apiCalls := by
  refine ⟨by decide, by decide, by decide⟩

/-- C4 counterexample: under the built-in default configuration the
classification does not always miss — reading 100 lands in Zone 5,
whose default upper bound is the 999 sentinel, not zero. -/
theorem claim4_counterexample :
    getHeartRateZone 100 .running (loadZonesConfig none)
      = some ("Zone 5", ⟨0, 999, "VO2 Max - Very hard to maximal effort"⟩) ∧
    getHeartRateZone 100 .running (loadZonesConfig none) ≠ none := by
  refine ⟨by decide, by decide⟩

/-- C4 (amended): when the external configuration is unreadable or
malformed, `load()` returns the built-in default configuration, whose
boundaries are all zero except the top zones' sentinel maxima; under it
classification does not always miss: a negative reading yields no zone,
reading 0 yields Zone 1, and every positive reading yields Zone 5, for
both sports. -/
theorem claim4_theorem (hr : ℚ) (sport : Sport) :
    loadZonesConfig none = getDefaultConfig ∧
    (hr < 0 → getHeartRateZone hr sport (loadZonesConfig none) = none) ∧
    (hr = 0 → (getHeartRateZone hr sport (loadZonesConfig none)).map Prod.fst = some "Zone 1") ∧
    (0 < hr → (getHeartRateZone hr sport (loadZonesConfig none)).map Prod.fst = some "Zone 5") := by
  refine ⟨rfl, fun h => ?_, fun h => ?_, fun h => ?_⟩
  · have hneg : ¬ ((0:ℚ) ≤ hr ∧ (hr ≤ 0 ∨ (999:ℚ) ≤ 0)) := fun hc => absurd hc.1 (not_le.mpr h)
    have hneg5 : ¬ ((0:ℚ) ≤ hr ∧ (hr ≤ 999 ∨ (999:ℚ) ≤ 999)) := fun hc => absurd hc.1 (not_le.mpr h)
    cases sport <;>
      simp only [getHeartRateZone, loadZonesConfig, getDefaultConfig, sportZones, findZoneHR] <;>
      rw [if_neg hneg, if_neg hneg, if_neg hneg, if_neg hneg, if_neg hneg, if_neg hneg5]
  · subst h
    cases sport <;> decide
  · have hneg : ¬ ((0:ℚ) ≤ hr ∧ (hr ≤ 0 ∨ (999:ℚ) ≤ 0)) := by
      rintro ⟨h1, h2 | h2⟩
      · exact absurd h (not_lt.mpr h2)
      · norm_num at h2
    have hp : (0:ℚ) ≤ hr ∧ (hr ≤ 999 ∨ (999:ℚ) ≤ 999) := ⟨le_of_lt h, Or.inr (by norm_num)⟩
    cases sport <;>
      simp only [getHeartRateZone, loadZonesConfig, getDefaultConfig, sportZones, findZoneHR] <;>
      rw [if_neg hneg, if_neg hneg, if_neg hneg, if_neg hneg, if_neg hneg, if_pos hp] <;> rfl

theorem claim4_witness :
    (getHeartRateZone 100 .running (loadZonesConfig none)).map Prod.fst = some "Zone 5" ∧
    getHeartRateZone (-5) .cycling (loadZonesConfig none) = none :=
  ⟨(claim4_theorem 100 .running).2.2.2 (by norm_num),
   (claim4_theorem (-5) .cycling).2.1 (by norm_num)⟩

/-- C1 counterexample: on the concrete scenario the boundary reading 140
is classified into Zone 1 (closed upper bound), so Zone 1 holds the
sample 140 and Zone 2 holds 145,150,155,160 — not the claimed buckets
with Zone 1 empty and Zone 2 equal to 140,145,150,155. -/
theorem claim1_counterexample :
    zoneHeartRates c1zones c1hrs "Zone 2" = [145, 150, 155, 160] ∧
    zoneHeartRates c1zones c1hrs "Zone 1" = [140] ∧
    ¬ (zoneHeartRates c1zones c1hrs "Zone 2" = [140, 145, 150, 155] ∧
       zoneHeartRates c1zones c1hrs "Zone 1" = []) := by
  refine ⟨by decide, by decide, by decide⟩

/-- C1 (amended): aggregating the concrete scenario yields Zone 1 with
the single sample 140 (10 s, 10%), Zone 2 with exactly 145,150,155,160
(4 samples, 40 s, 40%), Zone 3 with exactly 165,170,175,170,165
(5 samples, 50 s, 50%), and output rows ordered Zone 3, Zone 2,
Zone 1. -/
theorem claim1_theorem :
    analyzeHeartRateZones c1hrs .running c1config c1times = .ok c1analysis := by
  simp only [analyzeHeartRateZones, sportZones, c1config, c1zones, c1hrs, c1times,
    computeTimeInterval, successiveDiffs, zoneRow, zoneHeartRates, classifiedName,
    findZoneHR, listMin, listMax, sortByPercentageDesc, insertRow, c1analysis]
  norm_num [round_eq, Rat.floor_def]
  simp
  norm_num [insertRow, round_eq, Rat.floor_def]

lemma access_not_refresh {l : String} (h : jsStartsWith l "STRAVA_ACCESS_TOKEN=" = true) :
    jsStartsWith l "STRAVA_REFRESH_TOKEN=" = false := by
  by_contra hc
  have h2 : jsStartsWith l "STRAVA_REFRESH_TOKEN=" = true := by
    cases e : jsStartsWith l "STRAVA_REFRESH_TOKEN="
    · exact absurd e hc
    · rfl
  have e1 : l.data.take ("STRAVA_ACCESS_TOKEN=".data.length) = "STRAVA_ACCESS_TOKEN=".data := by
    simpa [jsStartsWith] using h
  have e2 : l.data.take ("STRAVA_REFRESH_TOKEN=".data.length) = "STRAVA_REFRESH_TOKEN=".data := by
    simpa [jsStartsWith] using h2
  have hl1 : "STRAVA_ACCESS_TOKEN=".data.length = 20 := by decide
  have hl2 : "STRAVA_REFRESH_TOKEN=".data.length = 21 := by decide
  rw [hl1] at e1
  rw [hl2] at e2
  have e3 := congrArg (List.take 20) e2
  rw [List.take_take] at e3
  norm_num at e3
  exact absurd (e1.symm.trans e3) (by decide)

lemma processEnvLines_characterization (a r : String) :
    ∀ (lines : List String) (au ru : Bool),
    (∀ l ∈ lines, jsTrim l ≠ "") →
    processEnvLines a r lines au ru
      = lines.map (replaceTokenLine a r)
        ++ (if au || lines.any (fun l => jsStartsWith l "STRAVA_ACCESS_TOKEN=") then []
            else ["STRAVA_ACCESS_TOKEN=" ++ a])
        ++ (if ru || lines.any (fun l => jsStartsWith l "STRAVA_REFRESH_TOKEN=") then []
            else ["STRAVA_REFRESH_TOKEN=" ++ r]) := by
  intro lines
  induction lines with
  | nil => intro au ru _; cases au <;> cases ru <;> simp [processEnvLines]
  | cons line rest ih =>
    intro au ru h
    have hrest : ∀ l ∈ rest, jsTrim l ≠ "" := fun l hl => h l (List.mem_cons_of_mem _ hl)
    by_cases h1 : jsStartsWith line "STRAVA_ACCESS_TOKEN=" = true
    · have h2 := access_not_refresh h1
      simp only [processEnvLines, h1, if_true]
      rw [ih true ru hrest]
      simp [replaceTokenLine, h1, h2]
    · by_cases h2 : jsStartsWith line "STRAVA_REFRESH_TOKEN=" = true
      · simp only [processEnvLines, h1, h2, if_true, Bool.false_eq_true, if_false]
        rw [ih au true hrest]
        simp [replaceTokenLine, h1, h2]
      · have h3 : jsTrim line ≠ "" := h line (List.mem_cons_self _ _)
        simp only [processEnvLines, h1, h2, Bool.false_eq_true, if_false, if_pos h3]
        rw [ih au ru hrest]
        simp [replaceTokenLine, h1, h2]

/-- C5 (amended): after a successful refresh the writer rewrites every
token line in place with the new value, keeps every other non-blank line
untouched and in order, and appends any token key that was missing; the
final content additionally drops blank lines and is trimmed with one
trailing newline. -/
theorem claim5_theorem (lines : List String) (a r : String)
    (h : ∀ l ∈ lines, jsTrim l ≠ "") :
    processEnvLines a r lines false false
      = lines.map (replaceTokenLine a r)
        ++ (if lines.any (fun l => jsStartsWith l "STRAVA_ACCESS_TOKEN=") then []
            else ["STRAVA_ACCESS_TOKEN=" ++ a])
        ++ (if lines.any (fun l => jsStartsWith l "STRAVA_REFRESH_TOKEN=") then []
            else ["STRAVA_REFRESH_TOKEN=" ++ r]) := by
  simpa using processEnvLines_characterization a r lines false false h

theorem claim5_witness :
    (∀ l ∈ ["KEEP=x", "STRAVA_ACCESS_TOKEN=old"], jsTrim l ≠ "") ∧
    processEnvLines "A" "R" ["KEEP=x", "STRAVA_ACCESS_TOKEN=old"] false false
      = ["KEEP=x", "STRAVA_ACCESS_TOKEN=A", "STRAVA_REFRESH_TOKEN=R"] := by
  constructor
  · decide
  · rw [claim5_theorem _ "A" "R" (by decide)]
    decide

/-- C5 counterexample: a blank interior line of the store is not
preserved by the writer, so not every non-token line survives. -/
theorem claim5_counterexample :
    updateTokensInEnvFile "FOO=1\n\nBAR=2" "A" "R"
      = "FOO=1\nBAR=2\nSTRAVA_ACCESS_TOKEN=A\nSTRAVA_REFRESH_TOKEN=R\n" ∧
    "" ∈ jsSplitNewline "FOO=1\n\nBAR=2" ∧
    "" ∉ (jsSplitNewline (updateTokensInEnvFile "FOO=1\n\nBAR=2" "A" "R")).dropLast := by
  refine ⟨by decide, by decide, by decide⟩

lemma headMin_le (z0 : String × Zone) (rest : List (String × Zone))
    (hcontig : List.Chain' (fun a b => a.2.max = b.2.min) (z0 :: rest))
    (hlt : ∀ z ∈ z0 :: rest, z.2.min < z.2.max) :
    ∀ Z ∈ z0 :: rest, z0.2.min ≤ Z.2.min := by
  induction rest generalizing z0 with
  | nil =>
    intro Z hZ
    rw [List.mem_singleton] at hZ
    exact hZ ▸ le_refl _
  | cons z1 rest2 ih =>
    intro Z hZ
    rcases List.mem_cons.mp hZ with h | h
    · exact h ▸ le_refl _
    · have hchain := List.chain'_cons.mp hcontig
      have h01 : z0.2.max = z1.2.min := hchain.1
      have hrec := ih z1 hchain.2 (fun z hz => hlt z (List.mem_cons_of_mem _ hz)) Z h
      have h0 : z0.2.min < z0.2.max := hlt z0 (List.mem_cons_self _ _)
      calc z0.2.min ≤ z1.2.min := le_of_lt (h01 ▸ h0)
        _ ≤ Z.2.min := hrec

lemma findZoneHR_first_match (zones : SportZones)
    (hcontig : List.Chain' (fun a b => a.2.max = b.2.min) zones)
    (hlt : ∀ z ∈ zones, z.2.min < z.2.max)
    (hsent : ∀ z ∈ zones.dropLast, z.2.max < 999) :
    ∀ Z ∈ zones, ∀ v : ℚ, Z.2.min < v → v ≤ Z.2.max → findZoneHR v zones = some Z := by
  induction zones with
  | nil => intro Z hZ; exact absurd hZ (List.not_mem_nil _)
  | cons z rest ih =>
    intro Z hZ v hv1 hv2
    rcases List.mem_cons.mp hZ with h | h
    · subst h
      simp only [findZoneHR]
      rw [if_pos ⟨le_of_lt hv1, Or.inl hv2⟩]
    · -- Z is in rest, so rest is nonempty
      rcases rest with _ | ⟨z1, rest2⟩
      · exact absurd h (List.not_mem_nil _)
      have hchain := List.chain'_cons.mp hcontig
      have hz1Z : z1.2.min ≤ Z.2.min :=
        headMin_le z1 rest2 hchain.2 (fun w hw => hlt w (List.mem_cons_of_mem _ hw)) Z h
      have hzmax : z.2.max = z1.2.min := hchain.1
      have hnotle : ¬ v ≤ z.2.max := by
        rw [hzmax]
        exact not_le.mpr (lt_of_le_of_lt hz1Z hv1)
      have hzsent : z.2.max < 999 := by
        apply hsent
        simp [List.dropLast]
      simp only [findZoneHR]
      rw [if_neg (fun hc => hc.2.elim hnotle (fun hs => absurd hs (not_le.mpr hzsent)))]
      apply ih hchain.2 (fun w hw => hlt w (List.mem_cons_of_mem _ hw))
      · intro w hw
        apply hsent
        rcases rest2 with _ | ⟨z2, rest3⟩
        · simp at hw
        · simp only [List.dropLast] at hw ⊢
          exact List.mem_cons_of_mem _ hw
      · exact h
      · exact hv1
      · exact hv2

lemma findZoneHR_sentinel (zones : SportZones)
    (hsent : ∀ z ∈ zones.dropLast, z.2.max < 999)
    (hmin : ∀ z ∈ zones, z.2.min < 999) :
    ∀ T, zones.getLast? = some T → 999 ≤ T.2.max →
      ∀ v : ℚ, 999 ≤ v → findZoneHR v zones = some T := by
  induction zones with
  | nil => intro T hT; simp at hT
  | cons z rest ih =>
    intro T hT hTmax v hv
    rcases rest with _ | ⟨z1, rest2⟩
    · simp only [List.getLast?_singleton, Option.some.injEq] at hT
      subst hT
      simp only [findZoneHR]
      rw [if_pos ⟨le_of_lt (lt_of_lt_of_le (hmin z (List.mem_cons_self _ _)) hv),
        Or.inr hTmax⟩]
    · have hzsent : z.2.max < 999 := by
        apply hsent
        simp [List.dropLast]
      simp only [findZoneHR]
      rw [if_neg (fun hc => hc.2.elim
        (fun hle => absurd (lt_of_lt_of_le hzsent hv) (not_lt.mpr hle))
        (fun hs => absurd hs (not_le.mpr hzsent)))]
      apply ih
      · intro w hw
        apply hsent
        simp only [List.dropLast] at hw ⊢
        exact List.mem_cons_of_mem _ hw
      · exact fun w hw => hmin w (List.mem_cons_of_mem _ hw)
      · rw [List.getLast?_cons_cons] at hT
        exact hT
      · exact hTmax
      · exact hv

/-- C2 (amended): for a zone table whose entries are ordered, contiguous
and non-overlapping with boundaries below the 999 sentinel, a reading
strictly above a zone's min and at most its max classifies to that zone
(so a shared boundary value goes to the earlier zone, not the later one
as the half-open reading of the claim asserts), a reading equal to the
first zone's min classifies to the first zone, and a reading at or above
the sentinel classifies to the top zone when that zone's max carries the
sentinel. -/
theorem claim2_theorem (zones : SportZones)
    (hcontig : List.Chain' (fun a b => a.2.max = b.2.min) zones)
    (hlt : ∀ z ∈ zones, z.2.min < z.2.max)
    (hsent : ∀ z ∈ zones.dropLast, z.2.max < 999)
    (hmin : ∀ z ∈ zones, z.2.min < 999) :
    (∀ Z ∈ zones, ∀ v : ℚ, Z.2.min < v → v ≤ Z.2.max → findZoneHR v zones = some Z) ∧
    (∀ z0 rest, zones = z0 :: rest → ∀ v : ℚ, z0.2.min ≤ v → v ≤ z0.2.max →
      findZoneHR v zones = some z0) ∧
    (∀ T, zones.getLast? = some T → 999 ≤ T.2.max → ∀ v : ℚ, 999 ≤ v →
      findZoneHR v zones = some T) := by
  refine ⟨findZoneHR_first_match zones hcontig hlt hsent, ?_,
    findZoneHR_sentinel zones hsent hmin⟩
  intro z0 rest hz v h1 h2
  subst hz
  simp only [findZoneHR]
  rw [if_pos ⟨h1, Or.inl h2⟩]

/-- C2 counterexample: in the ordered contiguous table
`Zone1[0,140) Zone2[140,160) Zone3[160,200)` the reading 140 satisfies
`Zone2.min <= 140 < Zone2.max` yet the classifier returns Zone 1,
because its containment test uses a closed upper bound. -/
theorem claim2_counterexample :
    ("Zone 2", (⟨140, 160, "z2"⟩ : Zone)) ∈ c1zones ∧
    (140:ℚ) ≥ (140:ℚ) ∧ (140:ℚ) < 160 ∧
    findZoneHR 140 c1zones = some ("Zone 1", ⟨0, 140, "z1"⟩) ∧
    findZoneHR 140 c1zones ≠ some ("Zone 2", ⟨140, 160, "z2"⟩) := by
  refine ⟨by decide, by norm_num, by norm_num, by decide, by decide⟩

theorem claim2_witness :
    findZoneHR 150 c2zones = some ("Zone 2", ⟨140, 160, "mid"⟩) ∧
    findZoneHR 1000 c2zones = some ("Zone 3", ⟨160, 999, "high"⟩) := by
  have h := claim2_theorem c2zones (by norm_num [c2zones, List.chain'_cons])
    (by decide) (by decide) (by decide)
  exact ⟨h.1 ("Zone 2", ⟨140, 160, "mid"⟩) (by decide) 150 (by norm_num) (by norm_num),
    h.2.2 ("Zone 3", ⟨160, 999, "high"⟩) (by decide) (by norm_num) 1000 (by norm_num)⟩

lemma round_le_round_of_le {a b : ℚ} (h : a ≤ b) : round a ≤ round b := by
  rw [round_eq, round_eq]
  exact Int.floor_le_floor (by linarith)

/-- C7 counterexample: at FTP 200 the derived power bands are
`[0,110] [112,150] [152,180] [182,210] [212,240] [242,9999]`, so the
non-negative power 111 falls in no zone — the derived bands are not
contiguous and do not classify every non-negative value. -/
theorem claim7_counterexample :
    (0:ℚ) ≤ 111 ∧ getPowerZone 111 (calculateCyclingPowerZones cfg200) = none := by
  refine ⟨by norm_num, ?_⟩
  simp only [calculateCyclingPowerZones, cfg200, getDefaultConfig, setZoneBounds,
    getPowerZone, List.map]
  norm_num [round_eq, Rat.floor_def]
  simp
  norm_num [findZonePower]

/-- C7 (amended): for every positive FTP the derivation overwrites the
cycling power-zone bounds with the rounded percentage bands
Z1 [0, r(55%)], Z2 [r(56%), r(75%)], Z3 [r(76%), r(90%)],
Z4 [r(91%), r(105%)], Z5 [r(106%), r(120%)], Z6 [r(121%), 9999-sentinel]
(r = round to nearest watt); rounding can leave one-watt gaps between
bands, and a power above Z5's max and at least Z6's min classifies to
Zone 6 whenever Z5's max is below the 9999 sentinel. -/
theorem claim7_theorem (ftp : ℚ) (h : 0 < ftp) :
    (calculateCyclingPowerZones
        { getDefaultConfig with powerSettings := some ⟨ftp, true⟩ }).powerZones
      = some
        [("Zone 1", ⟨0, (round (ftp * 0.55) : ℤ),
            "Active Recovery - Easy spinning, minimal power output"⟩),
         ("Zone 2", ⟨(round (ftp * 0.56) : ℤ), (round (ftp * 0.75) : ℤ),
            "Aerobic Base - Comfortable endurance power"⟩),
         ("Zone 3", ⟨(round (ftp * 0.76) : ℤ), (round (ftp * 0.90) : ℤ),
            "Aerobic Threshold - Tempo power output"⟩),
         ("Zone 4", ⟨(round (ftp * 0.91) : ℤ), (round (ftp * 1.05) : ℤ),
            "Lactate Threshold - Functional Threshold Power (FTP)"⟩),
         ("Zone 5", ⟨(round (ftp * 1.06) : ℤ), (round (ftp * 1.20) : ℤ),
            "VO2 Max - Hard anaerobic power"⟩),
         ("Zone 6", ⟨(round (ftp * 1.21) : ℤ), 9999,
            "Anaerobic Capacity - Maximal power output"⟩)] ∧
    (∀ p : ℚ, ((round (ftp * 1.21) : ℤ) : ℚ) ≤ p → ((round (ftp * 1.20) : ℤ) : ℚ) < p →
      ((round (ftp * 1.20) : ℤ) : ℚ) < 9999 →
      getPowerZone p (calculateCyclingPowerZones
          { getDefaultConfig with powerSettings := some ⟨ftp, true⟩ })
        = some ("Zone 6", ⟨(round (ftp * 1.21) : ℤ), 9999,
            "Anaerobic Capacity - Maximal power output"⟩)) := by
  have h1 : (calculateCyclingPowerZones
      { getDefaultConfig with powerSettings := some ⟨ftp, true⟩ }).powerZones
      = some
        [("Zone 1", ⟨0, (round (ftp * 0.55) : ℤ),
            "Active Recovery - Easy spinning, minimal power output"⟩),
         ("Zone 2", ⟨(round (ftp * 0.56) : ℤ), (round (ftp * 0.75) : ℤ),
            "Aerobic Base - Comfortable endurance power"⟩),
         ("Zone 3", ⟨(round (ftp * 0.76) : ℤ), (round (ftp * 0.90) : ℤ),
            "Aerobic Threshold - Tempo power output"⟩),
         ("Zone 4", ⟨(round (ftp * 0.91) : ℤ), (round (ftp * 1.05) : ℤ),
            "Lactate Threshold - Functional Threshold Power (FTP)"⟩),
         ("Zone 5", ⟨(round (ftp * 1.06) : ℤ), (round (ftp * 1.20) : ℤ),
            "VO2 Max - Hard anaerobic power"⟩),
         ("Zone 6", ⟨(round (ftp * 1.21) : ℤ), 9999,
            "Anaerobic Capacity - Maximal power output"⟩)] := by
    simp only [calculateCyclingPowerZones, getDefaultConfig, setZoneBounds, List.map]
    rw [if_neg (ne_of_gt h)]
    simp
  refine ⟨h1, ?_⟩
  intro p hp1 hp2 hp3
  have hbound : ∀ c : ℚ, c ≤ 1.20 →
      ((round (ftp * c) : ℤ) : ℚ) ≤ ((round (ftp * 1.20) : ℤ) : ℚ) := by
    intro c hc
    exact_mod_cast round_le_round_of_le (mul_le_mul_of_nonneg_left hc (le_of_lt h))
  have hnotzone : ∀ mn c : ℚ, c ≤ 1.20 →
      ¬ (mn ≤ p ∧ (p ≤ ((round (ftp * c) : ℤ) : ℚ) ∨
          (9999:ℚ) ≤ ((round (ftp * c) : ℤ) : ℚ))) := by
    intro mn c hc hcond
    rcases hcond.2 with hle | hs
    · linarith [hbound c hc]
    · linarith [hbound c hc]
  unfold getPowerZone
  rw [h1]
  simp only [findZonePower]
  rw [if_neg (hnotzone _ 0.55 (by norm_num)), if_neg (hnotzone _ 0.75 (by norm_num)),
    if_neg (hnotzone _ 0.90 (by norm_num)), if_neg (hnotzone _ 1.05 (by norm_num)),
    if_neg (hnotzone _ 1.20 (by norm_num)), if_pos ⟨hp1, Or.inr (by norm_num)⟩]

theorem claim7_witness :
    getPowerZone 250 (calculateCyclingPowerZones
        { getDefaultConfig with powerSettings := some ⟨200, true⟩ })
      = some ("Zone 6", ⟨242, 9999, "Anaerobic Capacity - Maximal power output"⟩) := by
  have h := (claim7_theorem 200 (by norm_num)).2 250
  norm_num [round_eq, Rat.floor_def] at h
  exact h

lemma insertRow_perm (x : ZoneRow) (l : List ZoneRow) : (insertRow x l).Perm (x :: l) := by
  induction l with
  | nil => exact List.Perm.refl _
  | cons y ys ih =>
    simp only [insertRow]
    split
    · exact List.Perm.refl _
    · exact (ih.cons y).trans (List.Perm.swap x y ys)

lemma sortRows_perm (l : List ZoneRow) : (sortByPercentageDesc l).Perm l := by
  induction l with
  | nil => exact List.Perm.refl _
  | cons x xs ih => exact (insertRow_perm x _).trans (ih.cons x)

lemma findZoneHR_mem {v : ℚ} {zones : SportZones} {p : String × Zone}
    (h : findZoneHR v zones = some p) : p ∈ zones := by
  induction zones with
  | nil => simp [findZoneHR] at h
  | cons z rest ih =>
    simp only [findZoneHR] at h
    split at h
    · exact (Option.some.injEq _ _ ▸ h) ▸ List.mem_cons_self _ _
    · exact List.mem_cons_of_mem _ (ih h)

lemma sum_map_add_nat {α : Type} (l : List α) (f g : α → ℕ) :
    (l.map (fun x => f x + g x)).sum = (l.map f).sum + (l.map g).sum := by
  induction l with
  | nil => rfl
  | cons x xs ih =>
    simp only [List.map_cons, List.sum_cons, ih]
    omega

lemma sum_indicator_zero (zones : SportZones) (n : String)
    (h : n ∉ zones.map Prod.fst) :
    (zones.map (fun p => if n = p.1 then (1:ℕ) else 0)).sum = 0 := by
  induction zones with
  | nil => rfl
  | cons z zs ih =>
    simp only [List.map_cons, List.sum_cons]
    rw [if_neg (fun he => h (by simp [he])), ih (fun hm => h (by simp [hm]))]

lemma sum_indicator_one (zones : SportZones) (n : String)
    (hnd : (zones.map Prod.fst).Nodup) (hm : n ∈ zones.map Prod.fst) :
    (zones.map (fun p => if n = p.1 then (1:ℕ) else 0)).sum = 1 := by
  induction zones with
  | nil => simp at hm
  | cons z zs ih =>
    simp only [List.map_cons, List.nodup_cons] at hnd
    simp only [List.map_cons, List.sum_cons]
    have hm2 : n ∈ z.1 :: zs.map Prod.fst := by rw [List.map_cons] at hm; exact hm
    rcases List.mem_cons.mp hm2 with he | hm2
    · rw [if_pos he, sum_indicator_zero zs n (he ▸ hnd.1)]
    · have hne : n ≠ z.1 := fun he => hnd.1 (he ▸ hm2)
      rw [if_neg hne, ih hnd.2 hm2]

lemma zoneHeartRates_length_cons (zones : SportZones) (hr : ℚ) (rest : List ℚ)
    (name : String) :
    (zoneHeartRates zones (hr :: rest) name).length
      = (if classifiedName zones hr = some name then 1 else 0)
        + (zoneHeartRates zones rest name).length := by
  simp only [zoneHeartRates]
  split
  · simp [Nat.add_comm]
  · simp

lemma bucket_sizes_sum (zones : SportZones) (hrs : List ℚ)
    (hnd : (zones.map Prod.fst).Nodup)
    (hcl : ∀ hr ∈ hrs, findZoneHR hr zones ≠ none) :
    (zones.map (fun p => (zoneHeartRates zones hrs p.1).length)).sum = hrs.length := by
  induction hrs with
  | nil =>
    have : ∀ p ∈ zones, (zoneHeartRates zones [] p.1).length = 0 := by
      intro p _
      rfl
    rw [List.map_congr_left this]
    simp
  | cons hr rest ih =>
    obtain ⟨p0, hp0⟩ : ∃ p0, findZoneHR hr zones = some p0 := by
      cases hfz : findZoneHR hr zones
      · exact absurd hfz (hcl hr (List.mem_cons_self _ _))
      · exact ⟨_, rfl⟩
    have hname : classifiedName zones hr = some p0.1 := by simp [classifiedName, hp0]
    have hmem : p0.1 ∈ zones.map Prod.fst := List.mem_map_of_mem _ (findZoneHR_mem hp0)
    have step : ∀ p ∈ zones, (zoneHeartRates zones (hr :: rest) p.1).length
        = (if p0.1 = p.1 then (1:ℕ) else 0) + (zoneHeartRates zones rest p.1).length := by
      intro p _
      rw [zoneHeartRates_length_cons, hname]
      simp [Option.some.injEq]
    rw [List.map_congr_left step, sum_map_add_nat,
      sum_indicator_one zones p0.1 hnd hmem,
      ih (fun l hl => hcl l (List.mem_cons_of_mem _ hl))]
    simp [Nat.add_comm]

lemma sum_map_mul_right_q {α : Type} (l : List α) (f : α → ℕ) (c : ℚ) :
    (l.map (fun x => (f x : ℚ) * c)).sum = ((l.map f).sum : ℚ) * c := by
  induction l with
  | nil => simp
  | cons x xs ih => simp [ih, add_mul]

lemma sum_abs_le {α : Type} (l : List α) (f g : α → ℚ) (c : ℚ)
    (h : ∀ x ∈ l, |f x - g x| ≤ c) :
    |(l.map f).sum - (l.map g).sum| ≤ (l.length : ℚ) * c := by
  induction l with
  | nil => simp
  | cons x xs ih =>
    simp only [List.map_cons, List.sum_cons, List.length_cons]
    have h1 := h x (List.mem_cons_self _ _)
    have h2 := ih (fun y hy => h y (List.mem_cons_of_mem _ hy))
    have he : f x + (xs.map f).sum - (g x + (xs.map g).sum)
        = (f x - g x) + ((xs.map f).sum - (xs.map g).sum) := by ring
    rw [he]
    calc |(f x - g x) + ((xs.map f).sum - (xs.map g).sum)|
        ≤ |f x - g x| + |(xs.map f).sum - (xs.map g).sum| := abs_add _ _
      _ ≤ c + (xs.length : ℚ) * c := add_le_add h1 h2
      _ = ((xs.length : ℚ) + 1) * c := by ring
      _ = (((xs.length + 1 : ℕ)) : ℚ) * c := by push_cast; ring

lemma abs_round_sub_le (x : ℚ) : |(round x : ℚ) - x| ≤ 1/2 := by
  rw [abs_sub_comm]
  exact abs_sub_round x

lemma rows_time_bound (zones : SportZones) (hrs : List ℚ) (I T : ℚ)
    (hnd : (zones.map Prod.fst).Nodup)
    (hcl : ∀ hr ∈ hrs, findZoneHR hr zones ≠ none) :
    |(((zones.map (zoneRow zones hrs I T)).map (fun r => (r.time_seconds : ℚ))).sum
        - (hrs.length : ℚ) * I)| ≤ (zones.length : ℚ) / 2 := by
  rw [List.map_map]
  have hf : ∀ p ∈ zones, ((fun r => (r.time_seconds : ℚ)) ∘ zoneRow zones hrs I T) p
      = ((round (((zoneHeartRates zones hrs p.1).length : ℚ) * I) : ℤ) : ℚ) := by
    intro p _
    simp [zoneRow]
  rw [List.map_congr_left hf]
  have hsum_g : (zones.map (fun p => ((zoneHeartRates zones hrs p.1).length : ℚ) * I)).sum
      = (hrs.length : ℚ) * I := by
    rw [sum_map_mul_right_q zones (fun p => (zoneHeartRates zones hrs p.1).length) I,
      bucket_sizes_sum zones hrs hnd hcl]
  rw [← hsum_g]
  calc |((zones.map fun p =>
          ((round (((zoneHeartRates zones hrs p.1).length : ℚ) * I) : ℤ) : ℚ)).sum
        - (zones.map fun p => ((zoneHeartRates zones hrs p.1).length : ℚ) * I).sum)|
      ≤ (zones.length : ℚ) * (1/2) :=
        sum_abs_le zones _ _ (1/2) (fun p _ => abs_round_sub_le _)
    _ = (zones.length : ℚ) / 2 := by ring

lemma rows_pct_bound (zones : SportZones) (hrs : List ℚ) (I : ℚ)
    (hnd : (zones.map Prod.fst).Nodup)
    (hcl : ∀ hr ∈ hrs, findZoneHR hr zones ≠ none)
    (hT : 0 < (hrs.length : ℚ) * I) :
    |(((zones.map (zoneRow zones hrs I ((hrs.length : ℚ) * I))).map
        ZoneRow.percentage).sum - 100)| ≤ (zones.length : ℚ) / 20 := by
  have hn : (hrs.length : ℚ) ≠ 0 := by
    intro h0
    rw [h0] at hT
    simp at hT
  have hI0 : I ≠ 0 := by
    intro h0
    rw [h0] at hT
    simp at hT
  rw [List.map_map]
  have hf : ∀ p ∈ zones, (ZoneRow.percentage ∘ zoneRow zones hrs I ((hrs.length : ℚ) * I)) p
      = ((round ((((zoneHeartRates zones hrs p.1).length : ℚ) * I
            / ((hrs.length : ℚ) * I) * 100) * 10) : ℤ) : ℚ) / 10 := by
    intro p _
    simp [zoneRow, if_pos hT]
  rw [List.map_congr_left hf]
  have hsum_g : (zones.map (fun p =>
      ((zoneHeartRates zones hrs p.1).length : ℚ) * I / ((hrs.length : ℚ) * I) * 100)).sum
      = 100 := by
    have hg : ∀ p ∈ zones,
        ((zoneHeartRates zones hrs p.1).length : ℚ) * I / ((hrs.length : ℚ) * I) * 100
          = ((zoneHeartRates zones hrs p.1).length : ℚ) * (I / ((hrs.length : ℚ) * I) * 100) := by
      intro p _
      ring
    rw [List.map_congr_left hg,
      sum_map_mul_right_q zones (fun p => (zoneHeartRates zones hrs p.1).length) _,
      bucket_sizes_sum zones hrs hnd hcl]
    field_simp
    ring
  calc |((zones.map fun p =>
          ((round ((((zoneHeartRates zones hrs p.1).length : ℚ) * I
              / ((hrs.length : ℚ) * I) * 100) * 10) : ℤ) : ℚ) / 10).sum - 100)|
      = |((zones.map fun p =>
          ((round ((((zoneHeartRates zones hrs p.1).length : ℚ) * I
              / ((hrs.length : ℚ) * I) * 100) * 10) : ℤ) : ℚ) / 10).sum
        - (zones.map fun p =>
          ((zoneHeartRates zones hrs p.1).length : ℚ) * I
              / ((hrs.length : ℚ) * I) * 100).sum)| := by rw [hsum_g]
    _ ≤ (zones.length : ℚ) * (1/20) := by
        apply sum_abs_le
        intro p _
        set y : ℚ := ((zoneHeartRates zones hrs p.1).length : ℚ) * I
            / ((hrs.length : ℚ) * I) * 100 with hy
        have h1 : |((round (y * 10) : ℤ) : ℚ) - y * 10| ≤ 1/2 := abs_round_sub_le _
        have h2 : ((round (y * 10) : ℤ) : ℚ) / 10 - y
            = (((round (y * 10) : ℤ) : ℚ) - y * 10) / 10 := by ring
        rw [h2, abs_div]
        have h3 : |(10:ℚ)| = 10 := by norm_num
        rw [h3]
        linarith
    _ = (zones.length : ℚ) / 20 := by ring

/-- C6 (amended): for non-empty readings over a non-empty zone table
with distinct zone names, when every reading is classified and the
computed interval is positive, the sum of rounded time-in-zone values is
within half a rounding unit per zone (k/2 for k zones) of the total
computed activity time, and the sum of the one-decimal-rounded
percentages is within 0.05 per zone (k/20) of 100 — per-zone rounding
errors accumulate, so the claimed global bounds of one unit and 0.1 do
not hold. -/
theorem claim6_theorem (config : ZonesConfig) (sport : Sport) (hrs timeData : List ℚ)
    (hne : hrs ≠ [])
    (hz : sportZones config sport ≠ [])
    (hnd : ((sportZones config sport).map Prod.fst).Nodup)
    (hcl : ∀ hr ∈ hrs, findZoneHR hr (sportZones config sport) ≠ none)
    (hI : 0 < computeTimeInterval timeData hrs) :
    ∀ a, analyzeHeartRateZones hrs sport config timeData = .ok a →
      |((a.zones.map (fun r => (r.time_seconds : ℚ))).sum
          - (hrs.length : ℚ) * computeTimeInterval timeData hrs)|
        ≤ ((sportZones config sport).length : ℚ) / 2 ∧
      |((a.zones.map ZoneRow.percentage).sum - 100)|
        ≤ ((sportZones config sport).length : ℚ) / 20 := by
  intro a ha
  have hlen : ¬ hrs.length = 0 := fun h0 => hne (List.length_eq_zero.mp h0)
  have hzlen : ¬ (sportZones config sport).length = 0 :=
    fun h0 => hz (List.length_eq_zero.mp h0)
  have hT : 0 < (hrs.length : ℚ) * computeTimeInterval timeData hrs := by
    apply mul_pos _ hI
    exact_mod_cast List.length_pos.mpr hne
  simp only [analyzeHeartRateZones] at ha
  rw [if_neg hlen, if_neg hzlen] at ha
  injection ha with h
  subst h
  have hperm := sortRows_perm ((sportZones config sport).map
    (zoneRow (sportZones config sport) hrs (computeTimeInterval timeData hrs)
      ((hrs.length : ℚ) * computeTimeInterval timeData hrs)))
  constructor
  · calc |(((sortByPercentageDesc _).map (fun r => (r.time_seconds : ℚ))).sum
          - (hrs.length : ℚ) * computeTimeInterval timeData hrs)|
        = |((((sportZones config sport).map
            (zoneRow (sportZones config sport) hrs (computeTimeInterval timeData hrs)
              ((hrs.length : ℚ) * computeTimeInterval timeData hrs))).map
            (fun r => (r.time_seconds : ℚ))).sum
          - (hrs.length : ℚ) * computeTimeInterval timeData hrs)| := by
          rw [(hperm.map (fun r => (r.time_seconds : ℚ))).sum_eq]
      _ ≤ ((sportZones config sport).length : ℚ) / 2 :=
          rows_time_bound _ hrs _ _ hnd hcl
  · calc |(((sortByPercentageDesc _).map ZoneRow.percentage).sum - 100)|
        = |((((sportZones config sport).map
            (zoneRow (sportZones config sport) hrs (computeTimeInterval timeData hrs)
              ((hrs.length : ℚ) * computeTimeInterval timeData hrs))).map
            ZoneRow.percentage).sum - 100)| := by
          rw [(hperm.map ZoneRow.percentage).sum_eq]
      _ ≤ ((sportZones config sport).length : ℚ) / 20 :=
          rows_pct_bound _ hrs _ hnd hcl hT

set_option maxHeartbeats 2000000 in
/-- C6 counterexample: with four zones holding 1, 3, 5 and 7 of 16
samples, every reading is classified, yet the one-decimal-rounded
percentages are 6.3 + 18.8 + 31.3 + 43.8 = 100.2, which is not within
0.1 of 100. -/
theorem claim6_counterexample :
    (∀ hr ∈ c6hrs, findZoneHR hr c6zones ≠ none) ∧
    ((analysisZones (analyzeHeartRateZones c6hrs .running c6config c6times)).map
        ZoneRow.percentage).sum = 501/5 ∧
    ¬ (|(501:ℚ)/5 - 100| ≤ 1/10) := by
  refine ⟨by decide, ?_, by rw [abs_le]; norm_num⟩
  simp only [analyzeHeartRateZones, analysisZones, sportZones, c6config, c6zones, c6hrs,
    c6times, computeTimeInterval, successiveDiffs, zoneRow, zoneHeartRates, classifiedName,
    findZoneHR, listMin, listMax, sortByPercentageDesc, insertRow]
  norm_num [round_eq, Rat.floor_def]
  simp
  norm_num [insertRow, round_eq, Rat.floor_def]

theorem claim6_witness :
    analyzeHeartRateZones [(5:ℚ)] .running c6wconfig [] = .ok c6wanalysis ∧
    |((c6wanalysis.zones.map (fun r => (r.time_seconds : ℚ))).sum
        - (([(5:ℚ)] : List ℚ).length : ℚ) * computeTimeInterval [] [(5:ℚ)])|
      ≤ ((sportZones c6wconfig .running).length : ℚ) / 2 ∧
    |((c6wanalysis.zones.map ZoneRow.percentage).sum - 100)|
      ≤ ((sportZones c6wconfig .running).length : ℚ) / 20 := by
  have ha : analyzeHeartRateZones [(5:ℚ)] .running c6wconfig [] = .ok c6wanalysis := by
    simp only [analyzeHeartRateZones, sportZones, c6wconfig, c6wzones, c6wanalysis,
      computeTimeInterval, successiveDiffs, zoneRow, zoneHeartRates, classifiedName,
      findZoneHR, listMin, listMax, sortByPercentageDesc, insertRow]
    norm_num [round_eq, Rat.floor_def]
  have h := claim6_theorem c6wconfig .running [(5:ℚ)] [] (by decide) (by decide)
    (by decide) (by decide) (by norm_num [computeTimeInterval]) c6wanalysis ha
  exact ⟨ha, h.1, h.2⟩
